import Mathlib

/-!
Shallow embedding of `tarantool_deque.py` (package `tarantool-deque`,
Python bindings for the Tarantool delayed-queue script).

The client never stores tasks itself: every operation builds a command name
plus an argument tuple and sends it to the server through
`self.deque.tnt.call(cmd, args)`.  We model that remote call as an explicit
oracle `call : String → List Arg → Except DequeError TarantoolTuple`; each
embedded operation also returns the list of remote calls it issued, so that
statements such as "the timeout argument is omitted" or "the destructor
performs no remote call" are directly expressible.

Python exceptions become the `Except` monad.  Machine integers play no
role; Tarantool ids, states and scaled timestamps are modelled as `Int`.
Because `setup.py` declares Python 2.6 / 2.7 as the supported versions,
`/` on two ints in the source is floor division, modelled by `Int.fdiv`.
-/

namespace TarantoolDeque

/-- A positional argument of a remote call.  Task ids are ints, timeouts and
delays are numbers (int or float in Python, modelled as `ℚ`), payloads are
kept as strings (the client treats them opaquely). -/
inductive Arg where
  | int (i : Int)
  | num (q : ℚ)
  | str (s : String)
deriving DecidableEq, Repr

/-- The exceptions the client code can raise or observe.
`DatabaseError` is `tarantool.DatabaseError` (re-exported as
`Deque.DatabaseError`); the two tuple exceptions are
`Deque.ZeroTupleException` ("Error creating/updating task") and
`Deque.BadTupleException` ("Wrong task: ids are not match"); `TypeError`
is raised by the two property setters.  Message payloads are dropped. -/
inductive DequeError where
  | DatabaseError
  | ZeroTupleException
  | BadTupleException
  | TypeError
deriving DecidableEq, Repr

/-- One row of a Tarantool response, as indexed `row[0] .. row[10]` by
`Task.create_from_tuple` / `Task.update_from_tuple`. -/
structure Row where
  task_id : Int
  state : Int
  next_event : Int
  msg_type : Int
  obj_type : Int
  obj_id : Int
  channel : Int
  to_send_at : Int
  valid_until : Int
  created_at : Int
  data : String
deriving DecidableEq, Repr

/-- A Tarantool response tuple: a list of rows (`rowcount`, `[0]`) and the
server return code (`return_code`, consulted by `Deque.drop`). -/
structure TarantoolTuple where
  rows : List Row
  return_code : Int
deriving DecidableEq, Repr

/-- `the_tuple.rowcount` of the tarantool client library. -/
def TarantoolTuple.rowcount (t : TarantoolTuple) : Nat :=
  t.rows.length

/-- A `Tube` object.  The Python object holds a back reference to its
`Deque` (carried here implicitly by passing the call oracle) and the tube
name.  The `uid` field models CPython object identity: `Tube(self, name)`
allocates a fresh object, so `Deque.tube` hands out a fresh `uid`. -/
structure Tube where
  name : String
  uid : Nat
deriving DecidableEq, Repr

/-- `Tube.cmd`: the command name
`'deque.tube.{0}:{1}'.format(self.name, cmd_name)`. -/
def Tube.cmd (tube : Tube) (cmd_name : String) : String :=
  "deque.tube." ++ tube.name ++ ":" ++ cmd_name

/-- A `Task` object.  Fields named `*_raw` are the attributes the source
stores with a leading underscore (`_to_send_at`, `_valid_until`,
`_created_at`); the `deque` back reference is again carried by the oracle. -/
structure Task where
  tube : Tube
  task_id : Int
  state : Int
  next_event : Int
  msg_type : Int
  obj_type : Int
  obj_id : Int
  channel : Int
  to_send_at_raw : Int
  valid_until_raw : Int
  created_at_raw : Int
  data : String
deriving DecidableEq, Repr

/-- `d.get(k)` on a Python dict, modelled over an insertion-ordered
association list. -/
def dictGet {κ α : Type} [DecidableEq κ] (d : List (κ × α)) (k : κ) : Option α :=
  match d with
  | [] => none
  | (k2, v) :: rest => if k2 = k then some v else dictGet rest k

/-- `d[k] = v` on a Python dict: replace the binding if present, otherwise
append. -/
def dictSet {κ α : Type} [DecidableEq κ] (d : List (κ × α)) (k : κ) (v : α) :
    List (κ × α) :=
  match d with
  | [] => [(k, v)]
  | (k2, v2) :: rest => if k2 = k then (k, v) :: rest else (k2, v2) :: dictSet rest k v

/-- The module-level `TASK_STATE` dict. -/
def TASK_STATE : List (Int × String) :=
  [(0, "delayed"), (1, "ready"), (2, "taken"), (3, "done")]

/-- `Task.state_name`: `TASK_STATE.get(self.state, 'UNKNOWN')`. -/
def Task.state_name (t : Task) : String :=
  (dictGet TASK_STATE t.state).getD "UNKNOWN"

/-- `Task.to_send_at`: `self._to_send_at / 10000000`.  Under the Python
versions declared in `setup.py` (2.6, 2.7) `/` on two ints is floor
division, hence `Int.fdiv`. -/
def Task.to_send_at (t : Task) : Int :=
  Int.fdiv t.to_send_at_raw 10000000

/-- `Task.valid_until`: `self._valid_until / 10000000` (floor division,
see `Task.to_send_at`). -/
def Task.valid_until (t : Task) : Int :=
  Int.fdiv t.valid_until_raw 10000000

/-- `Task.created_at`: `self._created_at / 10000000` (floor division,
see `Task.to_send_at`). -/
def Task.created_at (t : Task) : Int :=
  Int.fdiv t.created_at_raw 10000000

/-- Modelled from the spec: the docstrings ("Returns ... timestamp
(float)") and the spec ("must be divided by that factor to recover a
floating-point epoch time") describe exact division of the stored wire
integer by 10,000,000, i.e. true division in `ℚ`.  Kept separate from
`Task.to_send_at` so the two can be compared. -/
def Task.to_send_at_exact (t : Task) : ℚ :=
  (t.to_send_at_raw : ℚ) / 10000000

/-- Modelled from the spec: exact division for `valid_until`
(see `Task.to_send_at_exact`). -/
def Task.valid_until_exact (t : Task) : ℚ :=
  (t.valid_until_raw : ℚ) / 10000000

/-- Modelled from the spec: exact division for `created_at`
(see `Task.to_send_at_exact`). -/
def Task.created_at_exact (t : Task) : ℚ :=
  (t.created_at_raw : ℚ) / 10000000

/-- The constructor call `cls(tube, task_id=row[0], ..., data=row[10])`
performed by `Task.create_from_tuple`. -/
def Task.of_row (tube : Tube) (row : Row) : Task :=
  { tube := tube
    task_id := row.task_id
    state := row.state
    next_event := row.next_event
    msg_type := row.msg_type
    obj_type := row.obj_type
    obj_id := row.obj_id
    channel := row.channel
    to_send_at_raw := row.to_send_at
    valid_until_raw := row.valid_until
    created_at_raw := row.created_at
    data := row.data }

/-- `Task.create_from_tuple(cls, tube, the_tuple)`: `None` input returns
`None`; zero rowcount raises `ZeroTupleException`; otherwise a `Task` is
built from `the_tuple[0]`. -/
def Task.create_from_tuple (tube : Tube) (the_tuple : Option TarantoolTuple) :
    Except DequeError (Option Task) :=
  match the_tuple with
  | none => .ok none
  | some tup =>
    match tup.rows with
    | [] => .error .ZeroTupleException
    | row :: _ => .ok (some (Task.of_row tube row))

/-- `Task.update_from_tuple`: raises `ZeroTupleException` on an empty
tuple, `BadTupleException` when `self.task_id != row[0]`, and otherwise
overwrites every attribute except `task_id` (and the `tube` / `deque`
references) from `the_tuple[0]`. -/
def Task.update_from_tuple (t : Task) (the_tuple : TarantoolTuple) :
    Except DequeError Task :=
  match the_tuple.rows with
  | [] => .error .ZeroTupleException
  | row :: _ =>
    if t.task_id ≠ row.task_id then
      .error .BadTupleException
    else
      .ok { t with
            state := row.state
            next_event := row.next_event
            msg_type := row.msg_type
            obj_type := row.obj_type
            obj_id := row.obj_id
            channel := row.channel
            to_send_at_raw := row.to_send_at
            valid_until_raw := row.valid_until
            created_at_raw := row.created_at
            data := row.data }

/-- The remote-call oracle: `self.tnt.call(cmd, args)`.  An `.error`
result models a raised `tarantool.DatabaseError` (or `NetworkError`). -/
def Oracle : Type :=
  String → List Arg → Except DequeError TarantoolTuple

/-- The trace of remote calls an operation issued, in order. -/
def RemoteTrace : Type :=
  List (String × List Arg)

/-- One invocation of `self.tnt.call(cmd, args)`: the oracle's answer plus
the one-element trace recording what was sent. -/
def tntCall (cmd : String) (args : List Arg) (call : Oracle) :
    Except DequeError TarantoolTuple × RemoteTrace :=
  (call cmd args, [(cmd, args)])

/-- `Deque.take(self, tube, timeout=None)`: `args = ()`, the timeout is
appended only when it is not `None`, then `self.tnt.call(cmd, args)`. -/
def Deque.take (tube : Tube) (timeout : Option ℚ) (call : Oracle) :
    Except DequeError TarantoolTuple × RemoteTrace :=
  tntCall (tube.cmd "take")
    (match timeout with
     | none => []
     | some q => [Arg.num q]) call

/-- `Deque.ack(self, tube, task_id)`: `args = (task_id,)`. -/
def Deque.ack (tube : Tube) (task_id : Int) (call : Oracle) :
    Except DequeError TarantoolTuple × RemoteTrace :=
  tntCall (tube.cmd "ack") [Arg.int task_id] call

/-- `Deque.release(self, tube, task_id, delay=None)`: `args = (task_id,)`
and the delay is appended only when it is not `None`. -/
def Deque.release (tube : Tube) (task_id : Int) (delay : Option ℚ) (call : Oracle) :
    Except DequeError TarantoolTuple × RemoteTrace :=
  tntCall (tube.cmd "release")
    ([Arg.int task_id] ++
      match delay with
      | none => []
      | some d => [Arg.num d]) call

/-- `Deque.peek(self, tube, task_id)`: `args = (task_id,)`. -/
def Deque.peek (tube : Tube) (task_id : Int) (call : Oracle) :
    Except DequeError TarantoolTuple × RemoteTrace :=
  tntCall (tube.cmd "peek") [Arg.int task_id] call

/-- `Deque.delete(self, tube, task_id)`: `args = (task_id,)`. -/
def Deque.delete (tube : Tube) (task_id : Int) (call : Oracle) :
    Except DequeError TarantoolTuple × RemoteTrace :=
  tntCall (tube.cmd "delete") [Arg.int task_id] call

/-- `Deque.drop(self, tube)`: calls with empty args and returns
`bool(the_tuple.return_code == 0)`. -/
def Deque.drop (tube : Tube) (call : Oracle) :
    Except DequeError Bool × RemoteTrace :=
  match tntCall (tube.cmd "drop") [] call with
  | (.error e, tr) => (.error e, tr)
  | (.ok the_tuple, tr) => (.ok (decide (the_tuple.return_code = 0)), tr)

/-- `Tube.take(self, timeout=None)`: delegates to `Deque.take`; when the
returned tuple has nonzero `rowcount` builds a `Task` via
`Task.create_from_tuple`, otherwise falls through returning `None`. -/
def Tube.take (tube : Tube) (timeout : Option ℚ) (call : Oracle) :
    Except DequeError (Option Task) × RemoteTrace :=
  match Deque.take tube timeout call with
  | (.error e, tr) => (.error e, tr)
  | (.ok the_tuple, tr) =>
    if the_tuple.rowcount ≠ 0 then
      match Task.create_from_tuple tube (some the_tuple) with
      | .error e => (.error e, tr)
      | .ok t => (.ok t, tr)
    else
      (.ok none, tr)

/-- `Tube.drop(self)`: `return self.deque.drop(self)`. -/
def Tube.drop (tube : Tube) (call : Oracle) :
    Except DequeError Bool × RemoteTrace :=
  Deque.drop tube call

/-- `Task.ack(self)`: `deque.ack`, then `update_from_tuple`, then
`bool(self.state == 3)`.  The updated task is returned alongside the
boolean (Python mutates `self` in place). -/
def Task.ack (t : Task) (call : Oracle) :
    Except DequeError (Task × Bool) × RemoteTrace :=
  match Deque.ack t.tube t.task_id call with
  | (.error e, tr) => (.error e, tr)
  | (.ok the_tuple, tr) =>
    match t.update_from_tuple the_tuple with
    | .error e => (.error e, tr)
    | .ok t2 => (.ok (t2, decide (t2.state = 3)), tr)

/-- `Task.release(self, delay=None)`: `deque.release`, then
`update_from_tuple`, then `bool(self.state == 1)` when `delay is None`
and `bool(self.state == 0)` otherwise. -/
def Task.release (t : Task) (delay : Option ℚ) (call : Oracle) :
    Except DequeError (Task × Bool) × RemoteTrace :=
  match Deque.release t.tube t.task_id delay call with
  | (.error e, tr) => (.error e, tr)
  | (.ok the_tuple, tr) =>
    match t.update_from_tuple the_tuple with
    | .error e => (.error e, tr)
    | .ok t2 =>
      match delay with
      | none => (.ok (t2, decide (t2.state = 1)), tr)
      | some _ => (.ok (t2, decide (t2.state = 0)), tr)

/-- `Task.peek(self)`: `deque.peek`, then `update_from_tuple`, then
`return True`. -/
def Task.peek (t : Task) (call : Oracle) :
    Except DequeError (Task × Bool) × RemoteTrace :=
  match Deque.peek t.tube t.task_id call with
  | (.error e, tr) => (.error e, tr)
  | (.ok the_tuple, tr) =>
    match t.update_from_tuple the_tuple with
    | .error e => (.error e, tr)
    | .ok t2 => (.ok (t2, true), tr)

/-- `Task.delete(self)`: `deque.delete`, then `update_from_tuple`, then
`bool(self.state == 3)`. -/
def Task.delete (t : Task) (call : Oracle) :
    Except DequeError (Task × Bool) × RemoteTrace :=
  match Deque.delete t.tube t.task_id call with
  | (.error e, tr) => (.error e, tr)
  | (.ok the_tuple, tr) =>
    match t.update_from_tuple the_tuple with
    | .error e => (.error e, tr)
    | .ok t2 => (.ok (t2, decide (t2.state = 3)), tr)

/-- `Task.__del__(self)`: when `self.state == 2` performs `self.release()`
suppressing `DatabaseError`; otherwise does nothing (and issues no remote
call, hence the empty trace). -/
def Task.del (t : Task) (call : Oracle) :
    Except DequeError Unit × RemoteTrace :=
  if t.state = 2 then
    match Task.release t none call with
    | (.error .DatabaseError, tr) => (.ok (), tr)
    | (.error e, tr) => (.error e, tr)
    | (.ok _, tr) => (.ok (), tr)
  else
    (.ok (), [])

/-- A Python class or instance reduced to its `dir()` listing, which is
all the two duck-typing setters inspect. -/
structure PyClass where
  attrs : List String
deriving DecidableEq, Repr

/-- Model of the external class `tarantool.Connection`: it does expose
`call` and `__init__`. -/
def tarantoolConnection : PyClass :=
  { attrs := ["__init__", "call"] }

/-- Model of a fresh `threading.Lock()` instance: it exposes the context
manager protocol. -/
def threadingLock : PyClass :=
  { attrs := ["__enter__", "__exit__"] }

/-- The mutable attributes of a `Deque` instance that the modelled
operations touch: the tube registry `self.tubes`, the connection class
`self._conclass`, the lock `self._lockinst` and the cached connection
`self._tnt` (an `Option` over an instance id).  `next_uid` is the
allocation counter backing `Tube.uid`. -/
structure DequeObj where
  tubes : List (String × Tube)
  next_uid : Nat
  conclass : PyClass
  lockinst : PyClass
  tnt : Option Nat
deriving DecidableEq, Repr

/-- The read step of `Deque.tube`: `tube = self.tubes.get(name)`. -/
def Deque.tubeGet (s : DequeObj) (name : String) : Option Tube :=
  dictGet s.tubes name

/-- The remainder of `Deque.tube` after the read: when the read found
nothing, `tube = Tube(self, name)` (a fresh object) followed by
`self.tubes[name] = tube`; the tube is returned.  Split from
`Deque.tubeGet` because no lock is held between the two steps, so another
thread may run in between. -/
def Deque.tubeFinish (s : DequeObj) (name : String) (got : Option Tube) :
    Tube × DequeObj :=
  match got with
  | some tube => (tube, s)
  | none =>
    let tube : Tube := { name := name, uid := s.next_uid }
    (tube, { s with tubes := dictSet s.tubes name tube, next_uid := s.next_uid + 1 })

/-- `Deque.tube(self, name)` run without interference: the read step
followed by the conditional create-and-store step. -/
def Deque.tube (s : DequeObj) (name : String) : Tube × DequeObj :=
  Deque.tubeFinish s name (Deque.tubeGet s name)

/-- The `tarantool_connection` property setter: `None` restores
`tarantool.Connection`; a class whose `dir()` has `call` and `__init__`
is accepted; anything else raises `TypeError` (leaving the object
untouched, since the raise precedes every assignment on that path).  On
both success paths `self._tnt = None` drops the cached connection. -/
def Deque.set_tarantool_connection (s : DequeObj) (con_cls : Option PyClass) :
    Except DequeError DequeObj :=
  match con_cls with
  | none => .ok { s with conclass := tarantoolConnection, tnt := none }
  | some c =>
    if "call" ∈ c.attrs ∧ "__init__" ∈ c.attrs then
      .ok { s with conclass := c, tnt := none }
    else
      .error .TypeError

/-- The `tarantool_lock` property setter: `None` installs a fresh
`threading.Lock()`; an object whose `dir()` has `__enter__` and
`__exit__` is accepted; anything else raises `TypeError`. -/
def Deque.set_tarantool_lock (s : DequeObj) (lock : Option PyClass) :
    Except DequeError DequeObj :=
  match lock with
  | none => .ok { s with lockinst := threadingLock }
  | some l =>
    if "__enter__" ∈ l.attrs ∧ "__exit__" ∈ l.attrs then
      .ok { s with lockinst := l }
    else
      .error .TypeError

/-! Concrete data for the closed witnesses and counterexamples. -/

/-- A concrete tube. -/
def exampleTube : Tube :=
  { name := "test_tube", uid := 0 }

/-- A concrete server row in state `ready`. -/
def exampleRow : Row :=
  { task_id := 1, state := 1, next_event := 0, msg_type := 1, obj_type := 0,
    obj_id := 0, channel := 1, to_send_at := 14000000000,
    valid_until := 14010000000, created_at := 14000000000, data := "foo" }

/-- The row above in state `done`. -/
def exampleRowDone : Row :=
  { exampleRow with state := 3 }

/-- A concrete task built from `exampleRow` (state `ready`). -/
def exampleTask : Task :=
  Task.of_row exampleTube exampleRow

/-- The same task in state `taken`. -/
def exampleTaskTaken : Task :=
  { exampleTask with state := 2 }

/-- A task whose scaled timestamps carry a fractional second
(5 units = 0.5 microseconds past 1400 s). -/
def exampleTaskFrac : Task :=
  Task.of_row exampleTube
    { exampleRow with
      to_send_at := 14000000005
      valid_until := 14000000005
      created_at := 14000000005 }

/-- An oracle answering every call with the one-row `ready` tuple. -/
def oracleReady : Oracle :=
  fun _ _ => .ok { rows := [exampleRow], return_code := 0 }

/-- An oracle answering every call with the one-row `done` tuple. -/
def oracleDone : Oracle :=
  fun _ _ => .ok { rows := [exampleRowDone], return_code := 0 }

/-- An oracle answering every call with an empty tuple (return code 0). -/
def oracleEmpty : Oracle :=
  fun _ _ => .ok { rows := [], return_code := 0 }

/-- An oracle raising `DatabaseError` on every call. -/
def oracleDbError : Oracle :=
  fun _ _ => .error .DatabaseError

/-- A fresh `Deque` instance as built by `__init__`: empty tube registry,
default connection class, a lock, no cached connection. -/
def exampleDequeObj : DequeObj :=
  { tubes := [], next_uid := 0, conclass := tarantoolConnection,
    lockinst := threadingLock, tnt := none }

/-! Claim C1. -/

/-- C1: the claim says `to_send_at`, `valid_until` and `created_at` return
the stored wire integer divided by exactly 10,000,000, recovering the
epoch time.  Under the supported Python versions (2.6/2.7 per `setup.py`)
`/` on two ints is floor division, so on the concrete task whose raw
timestamps are 14000000005 each property returns the int 1400 and the
fractional part of the epoch time is lost: the value differs from the
exact quotient 14000000005 / 10000000 that the claim, the docstrings
("timestamp (float)") and the spec describe. -/
theorem C1_timestamps_floor_divided_not_exact :
    Task.to_send_at exampleTaskFrac = 1400 ∧
    ((Task.to_send_at exampleTaskFrac : ℚ) ≠ Task.to_send_at_exact exampleTaskFrac) ∧
    Task.valid_until exampleTaskFrac = 1400 ∧
    ((Task.valid_until exampleTaskFrac : ℚ) ≠ Task.valid_until_exact exampleTaskFrac) ∧
    Task.created_at exampleTaskFrac = 1400 ∧
    ((Task.created_at exampleTaskFrac : ℚ) ≠ Task.created_at_exact exampleTaskFrac) := by
  have h1 : Task.to_send_at exampleTaskFrac = 1400 := by decide
  have h2 : Task.valid_until exampleTaskFrac = 1400 := by decide
  have h3 : Task.created_at exampleTaskFrac = 1400 := by decide
  have hraw1 : exampleTaskFrac.to_send_at_raw = 14000000005 := rfl
  have hraw2 : exampleTaskFrac.valid_until_raw = 14000000005 := rfl
  have hraw3 : exampleTaskFrac.created_at_raw = 14000000005 := rfl
  refine ⟨h1, ?_, h2, ?_, h3, ?_⟩
  · rw [h1]
    unfold Task.to_send_at_exact
    rw [hraw1]
    norm_num
  · rw [h2]
    unfold Task.valid_until_exact
    rw [hraw2]
    norm_num
  · rw [h3]
    unfold Task.created_at_exact
    rw [hraw3]
    norm_num

/-! Claim C7. -/

/-- C7: `Task.state_name` maps the state through the `TASK_STATE` dict:
0 ↦ delayed, 1 ↦ ready, 2 ↦ taken, 3 ↦ done, and every other integer
falls back to the default `'UNKNOWN'`. -/
theorem C7_state_name_enumeration (t : Task) :
    (t.state = 0 → t.state_name = "delayed") ∧
    (t.state = 1 → t.state_name = "ready") ∧
    (t.state = 2 → t.state_name = "taken") ∧
    (t.state = 3 → t.state_name = "done") ∧
    (t.state ≠ 0 → t.state ≠ 1 → t.state ≠ 2 → t.state ≠ 3 →
      t.state_name = "UNKNOWN") := by
  refine ⟨fun h => ?_, fun h => ?_, fun h => ?_, fun h => ?_,
    fun h0 h1 h2 h3 => ?_⟩ <;>
    simp_all [Task.state_name, TASK_STATE, dictGet, eq_comm]

/-- Witness for C7 at concrete states 1 and 7. -/
theorem C7_state_name_enumeration_witness :
    Task.state_name exampleTask = "ready" ∧
    Task.state_name { exampleTask with state := 7 } = "UNKNOWN" :=
  ⟨(C7_state_name_enumeration exampleTask).2.1 (by decide),
   (C7_state_name_enumeration { exampleTask with state := 7 }).2.2.2.2
     (by decide) (by decide) (by decide) (by decide)⟩

/-! Claim C10. -/

/-- Helper: a successful `update_from_tuple` never changes `task_id`. -/
theorem update_from_tuple_ok_task_id (t : Task) (tup : TarantoolTuple)
    (t2 : Task) (h : t.update_from_tuple tup = .ok t2) :
    t2.task_id = t.task_id := by
  unfold Task.update_from_tuple at h
  split at h
  · simp at h
  · split at h
    · simp at h
    · injection h with h2
      subst h2
      rfl

/-- C10: `update_from_tuple` raises `ZeroTupleException` on an empty
tuple and `BadTupleException` when the row id differs from the task's
own id; on success the task's `task_id` is unchanged, and consequently
`ack`, `release`, `peek` and `delete` all preserve `task_id`. -/
theorem C10_operations_preserve_task_id (t : Task) (tup : TarantoolTuple)
    (call : Oracle) :
    (tup.rows = [] → t.update_from_tuple tup = .error .ZeroTupleException) ∧
    (∀ row rest, tup.rows = row :: rest → t.task_id ≠ row.task_id →
      t.update_from_tuple tup = .error .BadTupleException) ∧
    (∀ t2, t.update_from_tuple tup = .ok t2 → t2.task_id = t.task_id) ∧
    (∀ t2 b, (Task.ack t call).1 = .ok (t2, b) → t2.task_id = t.task_id) ∧
    (∀ d t2 b, (Task.release t d call).1 = .ok (t2, b) → t2.task_id = t.task_id) ∧
    (∀ t2 b, (Task.peek t call).1 = .ok (t2, b) → t2.task_id = t.task_id) ∧
    (∀ t2 b, (Task.delete t call).1 = .ok (t2, b) → t2.task_id = t.task_id) := by
  refine ⟨fun hr => ?_, fun row rest hr hid => ?_,
    fun t2 h => update_from_tuple_ok_task_id t tup t2 h, ?_, ?_, ?_, ?_⟩
  · simp [Task.update_from_tuple, hr]
  · simp [Task.update_from_tuple, hr, hid]
  · intro t2 b h
    unfold Task.ack at h
    split at h
    · simp at h
    · split at h
      · simp at h
      · rename_i t3 hu
        simp at h
        rw [← h.1]
        exact update_from_tuple_ok_task_id _ _ _ hu
  · intro d t2 b h
    unfold Task.release at h
    split at h
    · simp at h
    · split at h
      · simp at h
      · rename_i t3 hu
        rcases d with _ | q <;> simp at h <;> rw [← h.1] <;>
          exact update_from_tuple_ok_task_id _ _ _ hu
  · intro t2 b h
    unfold Task.peek at h
    split at h
    · simp at h
    · split at h
      · simp at h
      · rename_i t3 hu
        simp at h
        rw [← h.1]
        exact update_from_tuple_ok_task_id _ _ _ hu
  · intro t2 b h
    unfold Task.delete at h
    split at h
    · simp at h
    · split at h
      · simp at h
      · rename_i t3 hu
        simp at h
        rw [← h.1]
        exact update_from_tuple_ok_task_id _ _ _ hu

/-- Witness for C10: an `ack` against the concrete `done` answer keeps the
task id, and the two exception branches fire on concrete bad tuples. -/
theorem C10_operations_preserve_task_id_witness :
    Task.update_from_tuple exampleTask { rows := [], return_code := 0 } =
      .error .ZeroTupleException ∧
    Task.update_from_tuple exampleTask
      { rows := [{ exampleRow with task_id := 2 }], return_code := 0 } =
      .error .BadTupleException ∧
    (Task.of_row exampleTube exampleRowDone).task_id = exampleTask.task_id :=
  ⟨(C10_operations_preserve_task_id exampleTask
      { rows := [], return_code := 0 } oracleDone).1 rfl,
   (C10_operations_preserve_task_id exampleTask
      { rows := [{ exampleRow with task_id := 2 }], return_code := 0 }
      oracleDone).2.1 { exampleRow with task_id := 2 } [] rfl (by decide),
   (C10_operations_preserve_task_id exampleTask
      { rows := [exampleRowDone], return_code := 0 } oracleDone).2.2.2.1
      (Task.of_row exampleTube exampleRowDone) true (by rfl)⟩

/-! Claim C2. -/

/-- C2: `Deque.take` omits the timeout argument when it is `None` and
passes it through (including 0) when given; `Tube.take` returns `None`
when the returned tuple has zero rows and a `Task` built from the first
row otherwise. -/
theorem C2_take_timeout_and_empty_result (tube : Tube) (call : Oracle) :
    (Deque.take tube none call =
      (call (tube.cmd "take") [], [(tube.cmd "take", ([] : List Arg))])) ∧
    (∀ q : ℚ, Deque.take tube (some q) call =
      (call (tube.cmd "take") [Arg.num q], [(tube.cmd "take", [Arg.num q])])) ∧
    (∀ timeout tup, (Deque.take tube timeout call).1 = .ok tup →
      (tup.rows = [] → (Tube.take tube timeout call).1 = .ok none) ∧
      (∀ row rest, tup.rows = row :: rest →
        (Tube.take tube timeout call).1 = .ok (some (Task.of_row tube row)))) := by
  refine ⟨rfl, fun q => rfl, fun timeout tup h => ⟨fun hr => ?_, fun row rest hr => ?_⟩⟩
  · unfold Tube.take
    split
    · rename_i e tr heq
      rw [heq] at h
      simp at h
    · rename_i tup2 tr heq
      rw [heq] at h
      simp at h
      subst h
      simp [TarantoolTuple.rowcount, hr]
  · unfold Tube.take
    split
    · rename_i e tr heq
      rw [heq] at h
      simp at h
    · rename_i tup2 tr heq
      rw [heq] at h
      simp at h
      subst h
      simp [TarantoolTuple.rowcount, hr, Task.create_from_tuple]

/-- Witness for C2: a concrete empty answer yields `None` with
`timeout = 0`, a concrete one-row answer yields a `Task` with no
timeout. -/
theorem C2_take_timeout_and_empty_result_witness :
    (Tube.take exampleTube (some 0) oracleEmpty).1 = .ok none ∧
    (Tube.take exampleTube none oracleReady).1 =
      .ok (some (Task.of_row exampleTube exampleRow)) :=
  ⟨((C2_take_timeout_and_empty_result exampleTube oracleEmpty).2.2 (some 0)
      { rows := [], return_code := 0 } rfl).1 rfl,
   ((C2_take_timeout_and_empty_result exampleTube oracleReady).2.2 none
      { rows := [exampleRow], return_code := 0 } rfl).2 exampleRow [] rfl⟩

/-! Claim C4. -/

/-- C4: `Deque.release` sends the delay as an extra positional argument
only when it is not `None`; `Task.release` with no delay returns `True`
exactly when the updated state is `ready` (1), and with a delay exactly
when the updated state is `delayed` (0). -/
theorem C4_release_delay_and_success (t : Task) (call : Oracle) :
    ((Deque.release t.tube t.task_id none call).2 =
      [(t.tube.cmd "release", [Arg.int t.task_id])]) ∧
    (∀ d : ℚ, (Deque.release t.tube t.task_id (some d) call).2 =
      [(t.tube.cmd "release", [Arg.int t.task_id, Arg.num d])]) ∧
    (∀ t2 b, (Task.release t none call).1 = .ok (t2, b) →
      (b = true ↔ t2.state = 1)) ∧
    (∀ d t2 b, (Task.release t (some d) call).1 = .ok (t2, b) →
      (b = true ↔ t2.state = 0)) := by
  refine ⟨rfl, fun d => rfl, fun t2 b h => ?_, fun d t2 b h => ?_⟩
  · unfold Task.release at h
    split at h
    · simp at h
    · split at h
      · simp at h
      · rename_i t3 hu
        simp at h
        obtain ⟨rfl, rfl⟩ := h
        simp
  · unfold Task.release at h
    split at h
    · simp at h
    · split at h
      · simp at h
      · rename_i t3 hu
        simp at h
        obtain ⟨rfl, rfl⟩ := h
        simp

/-- Witness for C4: against the concrete `ready` answer, `release()` with
no delay reports success and `release(delay=0)` reports failure. -/
theorem C4_release_delay_and_success_witness :
    (true = true ↔ (Task.of_row exampleTube exampleRow).state = 1) ∧
    (false = true ↔ (Task.of_row exampleTube exampleRow).state = 0) :=
  ⟨(C4_release_delay_and_success exampleTask oracleReady).2.2.1
      (Task.of_row exampleTube exampleRow) true rfl,
   (C4_release_delay_and_success exampleTask oracleReady).2.2.2 0
      (Task.of_row exampleTube exampleRow) false rfl⟩

/-! Claim C5. -/

/-- C5: a `DatabaseError` raised by the remote `ack` call propagates out
of `Task.ack` (no silent `False`); on success the task is updated from
the returned row and `True` is returned exactly when the new state is
`done` (3). -/
theorem C5_ack_done_or_error (t : Task) (call : Oracle) :
    (∀ e, (Deque.ack t.tube t.task_id call).1 = .error e →
      (Task.ack t call).1 = .error e) ∧
    (∀ tup t2, (Deque.ack t.tube t.task_id call).1 = .ok tup →
      t.update_from_tuple tup = .ok t2 →
      (Task.ack t call).1 = .ok (t2, decide (t2.state = 3))) ∧
    (∀ t2 b, (Task.ack t call).1 = .ok (t2, b) → (b = true ↔ t2.state = 3)) := by
  refine ⟨fun e he => ?_, fun tup t2 htup hupd => ?_, fun t2 b h => ?_⟩
  · unfold Task.ack
    split
    · rename_i e2 tr heq
      rw [heq] at he
      simp at he
      subst he
      rfl
    · rename_i tup2 tr heq
      rw [heq] at he
      simp at he
  · unfold Task.ack
    split
    · rename_i e2 tr heq
      rw [heq] at htup
      simp at htup
    · rename_i tup2 tr heq
      rw [heq] at htup
      simp at htup
      subst htup
      rw [hupd]
  · unfold Task.ack at h
    split at h
    · simp at h
    · split at h
      · simp at h
      · rename_i t3 hu
        simp at h
        obtain ⟨rfl, rfl⟩ := h
        simp

/-- Witness for C5: the erroring oracle propagates `DatabaseError`, and
against the concrete `done` answer the success report is `True` iff the
new state is 3. -/
theorem C5_ack_done_or_error_witness :
    (Task.ack exampleTaskTaken oracleDbError).1 = .error .DatabaseError ∧
    (true = true ↔ (Task.of_row exampleTube exampleRowDone).state = 3) :=
  ⟨(C5_ack_done_or_error exampleTaskTaken oracleDbError).1 .DatabaseError rfl,
   (C5_ack_done_or_error exampleTaskTaken oracleDone).2.2
      (Task.of_row exampleTube exampleRowDone) true rfl⟩

/-! Claim C6. -/

/-- C6: `Task.__del__` issues a release exactly when the last known state
is `taken` (2): in any other state it performs no remote call (empty
trace) and raises nothing, independently of the server; in state 2 its
trace is exactly the release's trace, a `DatabaseError` raised by the
release is suppressed, a successful release is silently discarded, and
any other exception propagates. -/
theorem C6_del_releases_only_taken (t : Task) (call : Oracle) :
    (t.state ≠ 2 → Task.del t call = (.ok (), [])) ∧
    (t.state = 2 →
      (Task.del t call).2 = (Task.release t none call).2 ∧
      ((Task.release t none call).1 = .error .DatabaseError →
        (Task.del t call).1 = .ok ()) ∧
      (∀ r, (Task.release t none call).1 = .ok r → (Task.del t call).1 = .ok ()) ∧
      (∀ e, e ≠ DequeError.DatabaseError →
        (Task.release t none call).1 = .error e →
        (Task.del t call).1 = .error e)) := by
  refine ⟨fun hne => ?_, fun hs => ?_⟩
  · simp [Task.del, hne]
  · rcases hr : Task.release t none call with ⟨res, tr⟩
    refine ⟨?_, fun hdb => ?_, fun r hok => ?_, fun e hne he => ?_⟩
    · rcases res with e | r
      · rcases e <;> simp [Task.del, hs, hr]
      · simp [Task.del, hs, hr]
    · simp at hdb
      subst hdb
      simp [Task.del, hs, hr]
    · simp at hok
      subst hok
      simp [Task.del, hs, hr]
    · simp at he
      subst he
      rcases e with _ | _ | _ | _
      · exact absurd rfl hne
      all_goals simp [Task.del, hs, hr]

/-- Witness for C6: a `ready` task's destructor does nothing even against
an erroring server, and a `taken` task's destructor suppresses the
`DatabaseError` its release raises. -/
theorem C6_del_releases_only_taken_witness :
    Task.del exampleTask oracleDbError = (.ok (), []) ∧
    (Task.del exampleTaskTaken oracleDbError).1 = .ok () :=
  ⟨(C6_del_releases_only_taken exampleTask oracleDbError).1 (by decide),
   ((C6_del_releases_only_taken exampleTaskTaken oracleDbError).2 rfl).2.1 rfl⟩

/-! Claim C8. -/

/-- C8: `Deque.drop` sends the drop command with no arguments and returns
exactly the boolean `return_code == 0` of the server answer (no task
row); `Tube.drop` is that same call. -/
theorem C8_drop_returns_status_only (tube : Tube) (call : Oracle) :
    (Tube.drop tube call = Deque.drop tube call) ∧
    (∀ tup, call (tube.cmd "drop") [] = .ok tup →
      Deque.drop tube call =
        (.ok (decide (tup.return_code = 0)), [(tube.cmd "drop", ([] : List Arg))])) ∧
    (∀ e, call (tube.cmd "drop") [] = .error e →
      Deque.drop tube call = (.error e, [(tube.cmd "drop", ([] : List Arg))])) := by
  refine ⟨rfl, fun tup h => ?_, fun e h => ?_⟩ <;> simp [Deque.drop, tntCall, h]

/-- Witness for C8: a concrete zero return code yields `True`. -/
theorem C8_drop_returns_status_only_witness :
    Deque.drop exampleTube oracleEmpty =
      (.ok true, [(Tube.cmd exampleTube "drop", ([] : List Arg))]) :=
  (C8_drop_returns_status_only exampleTube oracleEmpty).2.1
    { rows := [], return_code := 0 } rfl

/-! Claim C9. -/

/-- C9: the connection setter accepts `None` (restoring the default
`tarantool.Connection` and dropping the cached connection) or any class
whose `dir()` exposes `call` and `__init__` (also dropping the cache),
and raises `TypeError` otherwise; the lock setter accepts `None`
(installing a fresh `threading.Lock()`) or any object exposing
`__enter__` and `__exit__`, and raises `TypeError` otherwise. -/
theorem C9_setters_duck_typed (s : DequeObj) (c l : PyClass) :
    (Deque.set_tarantool_connection s none =
      .ok { s with conclass := tarantoolConnection, tnt := none }) ∧
    ("call" ∈ c.attrs ∧ "__init__" ∈ c.attrs →
      Deque.set_tarantool_connection s (some c) =
        .ok { s with conclass := c, tnt := none }) ∧
    (¬("call" ∈ c.attrs ∧ "__init__" ∈ c.attrs) →
      Deque.set_tarantool_connection s (some c) = .error .TypeError) ∧
    (Deque.set_tarantool_lock s none = .ok { s with lockinst := threadingLock }) ∧
    ("__enter__" ∈ l.attrs ∧ "__exit__" ∈ l.attrs →
      Deque.set_tarantool_lock s (some l) = .ok { s with lockinst := l }) ∧
    (¬("__enter__" ∈ l.attrs ∧ "__exit__" ∈ l.attrs) →
      Deque.set_tarantool_lock s (some l) = .error .TypeError) := by
  refine ⟨rfl, fun h => ?_, fun h => ?_, rfl, fun h => ?_, fun h => ?_⟩ <;>
    simp [Deque.set_tarantool_connection, Deque.set_tarantool_lock, h]

/-- Witness for C9: a class without `call` is rejected with `TypeError`,
and a context-manager object is accepted as the lock. -/
theorem C9_setters_duck_typed_witness :
    Deque.set_tarantool_connection exampleDequeObj
      (some { attrs := ["foo"] }) = .error .TypeError ∧
    Deque.set_tarantool_lock exampleDequeObj (some threadingLock) =
      .ok { exampleDequeObj with lockinst := threadingLock } :=
  ⟨(C9_setters_duck_typed exampleDequeObj { attrs := ["foo"] } threadingLock).2.2.1
      (by decide),
   (C9_setters_duck_typed exampleDequeObj { attrs := ["foo"] } threadingLock).2.2.2.2.1
      (by decide)⟩

/-! Claim C3. -/

/-- Helper: reading back the key just stored in a Python dict model. -/
theorem dictGet_dictSet {κ α : Type} [DecidableEq κ] (d : List (κ × α))
    (k : κ) (v : α) : dictGet (dictSet d k v) k = some v := by
  induction d with
  | nil => simp [dictGet, dictSet]
  | cons hd tl ih =>
    obtain ⟨k2, v2⟩ := hd
    by_cases h : k2 = k
    · subst h
      simp [dictGet, dictSet]
    · simp [dictGet, dictSet, h, ih]

/-- C3 (amended): `Deque.tube` is sequentially idempotent — a second call
with the same name returns the very tube stored by the first call and
leaves the registry unchanged.  The atomicity half of the original claim
fails; see the counterexample. -/
theorem C3_tube_sequentially_idempotent (s : DequeObj) (name : String) :
    (Deque.tube (Deque.tube s name).2 name).1 = (Deque.tube s name).1 ∧
    (Deque.tube (Deque.tube s name).2 name).2 = (Deque.tube s name).2 := by
  rcases hg : dictGet s.tubes name with _ | tube <;>
    simp [Deque.tube, Deque.tubeFinish, Deque.tubeGet, hg, dictGet_dictSet]

/-- C3 counterexample: `Deque.tube` holds no lock between its read step
(`self.tubes.get(name)`) and its create-and-store step, so two callers
may interleave: both read the empty registry, then each allocates and
returns its own `Tube` instance.  On the concrete empty `Deque` the two
callers observe two different Tube objects for the same name, refuting
the atomicity / no-two-instances part of the claim. -/
theorem C3_tube_not_atomic_counterexample :
    (Deque.tubeFinish exampleDequeObj "q" (Deque.tubeGet exampleDequeObj "q")).1 ≠
    (Deque.tubeFinish
      (Deque.tubeFinish exampleDequeObj "q" (Deque.tubeGet exampleDequeObj "q")).2
      "q" (Deque.tubeGet exampleDequeObj "q")).1 := by
  decide

end TarantoolDeque
